import Mathlib

/-!
Shallow embedding of the request/notification pipeline of the repository
(static/js/utils.js and static/js/frontend.js), together with theorems
settling the specified properties of that pipeline.

JavaScript string operations used by the source (String.prototype.split,
startsWith, toUpperCase, parseInt) are modelled by structural functions on
character lists so that every definition evaluates inside the kernel.
-/

namespace Web

/-- Model of the JavaScript expression s.startsWith(p), on character lists. -/
def jsStartsWith : List Char → List Char → Bool
  | _, [] => true
  | [], _ :: _ => false
  | c :: s, p :: ps => c = p && jsStartsWith s ps

/-- Model of the JavaScript expression s.split(sep) for a one-character
separator, via an accumulator of the current segment (reversed). -/
def jsSplitChar (sep : Char) : List Char → List Char → List (List Char)
  | [], acc => [acc.reverse]
  | c :: rest, acc =>
    if c = sep then acc.reverse :: jsSplitChar sep rest []
    else jsSplitChar sep rest (c :: acc)

/-- Model of the JavaScript expression s.split("; ") used on document.cookie
(utils.js line 36): the separator is the fixed two-character sequence of a
semicolon followed by a space. -/
def splitOnSemiSpace : List Char → List Char → List (List Char)
  | [], acc => [acc.reverse]
  | ';' :: ' ' :: rest, acc => acc.reverse :: splitOnSemiSpace rest []
  | c :: rest, acc => splitOnSemiSpace rest (c :: acc)

/-- Model of the JavaScript expression s.toUpperCase() on the ASCII method
names occurring in the source. -/
def jsToUpperCase (s : String) : String := String.mk (s.data.map Char.toUpper)

/-- Truthiness of a JavaScript string-or-null value: null and the empty
string are falsy, every other string is truthy. -/
def jsTruthyStr : Option String → Bool
  | none => false
  | some s => !s.data.isEmpty

/-- Model of the JavaScript expression (v || dflt) on a string-or-absent
value v: the default is taken when v is absent or is the empty string. -/
def jsOrElse (v : Option String) (dflt : String) : String :=
  match v with
  | some s => if s.data.isEmpty then dflt else s
  | none => dflt

/-- Headers object of a request, as an association list of
(header name, header value) pairs in insertion order. -/
def Headers := List (String × String)

/-- Property read h[k] on a headers object: the value at the first matching
key, if any. -/
def headersGet : Headers → String → Option String
  | [], _ => none
  | (k0, v0) :: rest, k => if k0 = k then some v0 else headersGet rest k

/-- Property assignment h[k] = v on a headers object: overwrite the value at
an existing key, else append the new pair. -/
def headersSet : Headers → String → String → Headers
  | [], k, v => [(k, v)]
  | (k0, v0) :: rest, k, v =>
    if k0 = k then (k0, v) :: rest else (k0, v0) :: headersSet rest k v

/-- The ambient page state read by Utils.getCsrfToken: the document.cookie
string, and the value of the hidden input named csrfmiddlewaretoken when
that element exists in the DOM. -/
structure Page where
  cookie : String
  csrfHiddenField : Option String

/-- Row lookup modelling .find(row => row.startsWith("csrftoken=")) in
Utils.getCsrfToken (utils.js lines 35-37). -/
def findCsrfRow : List String → Option String
  | [] => none
  | r :: rest =>
    if jsStartsWith r.data "csrftoken=".data then some r else findCsrfRow rest

/-- Utils.getCsrfToken (utils.js lines 33-49): split document.cookie on
the two-character separator, find the row starting with csrftoken=, and
return the text between the first and second equals sign of that row
(the JavaScript row.split("=")[1]); when no such row exists, fall back to
the value of the hidden csrfmiddlewaretoken field; else null. -/
def getCsrfToken (pg : Page) : Option String :=
  let rows := (splitOnSemiSpace pg.cookie.data []).map String.mk
  match findCsrfRow rows with
  | some row => some (String.mk ((jsSplitChar '=' row.data []).getD 1 []))
  | none => pg.csrfHiddenField

/-- The options argument of Utils.ajax: the three own properties the source
ever supplies.  An absent field models a property not present on the
options object. -/
structure RequestOptions where
  method : Option String
  headers : Option Headers
  body : Option String

/-- The default headers object of Utils.ajax (utils.js lines 55-57). -/
def defaultHeaders : Headers := [("X-Requested-With", "XMLHttpRequest")]

/-- The method of the merged options of Utils.ajax (utils.js line 60): the
spread of options over the defaults keeps the callers method when the
caller supplied one, else GET. -/
def finalMethod (opts : RequestOptions) : String := opts.method.getD "GET"

/-- The headers of the request dispatched by Utils.ajax (utils.js lines
52-68).  The spread on line 60 is shallow: a caller-supplied headers object
replaces the default headers object wholesale.  When the merged method
uppercases to POST and a truthy CSRF token is found, it is assigned into
the headers object under X-CSRFToken. -/
def ajaxHeaders (pg : Page) (opts : RequestOptions) : Headers :=
  let hs := opts.headers.getD defaultHeaders
  if jsToUpperCase (finalMethod opts) = "POST" then
    let tok := getCsrfToken pg
    if jsTruthyStr tok then headersSet hs "X-CSRFToken" (tok.getD "") else hs
  else hs

/-- A parsed JSON response body, restricted to the fields the pipeline
reads: the success flag, the optional error message, and the optional
cart_count number.  An absent field models an absent JSON property. -/
structure ApiResponse where
  success : Bool
  error : Option String
  cart_count : Option Int
deriving DecidableEq

/-- Outcome of the fetch round trip underlying one Utils.ajax call:
either the network call itself fails, or a response arrives with an ok
flag (HTTP status in the success range) and a body that either parses as
JSON (some r) or does not (none). -/
inductive FetchOutcome where
  | networkError : FetchOutcome
  | response : Bool → Option ApiResponse → FetchOutcome
deriving DecidableEq

/-- A rendered notification: message text and severity type, as passed to
Utils.showNotification. -/
structure Notification where
  message : String
  type : String
deriving DecidableEq

/-- Settlement of the promise returned by Utils.ajax: resolved with the
parsed body, or rejected. -/
inductive AjaxResult where
  | resolved : ApiResponse → AjaxResult
  | rejected : AjaxResult
deriving DecidableEq

/-- The response half of Utils.ajax (utils.js lines 70-80): a non-ok
status throws, an unparsable body throws inside response.json(), and a
network error rejects; every such throw reaches the single catch handler,
which renders one generic error notification and rethrows.  The returned
pair is the settlement of the promise together with the list of
notifications rendered by this call, in order; the notifications are
side effects performed before the settlement is observed by the caller. -/
def ajaxSettle : FetchOutcome → AjaxResult × List Notification
  | FetchOutcome.networkError =>
    (AjaxResult.rejected, [⟨"请求失败，请重试", "error"⟩])
  | FetchOutcome.response ok body =>
    if ok then
      match body with
      | some r => (AjaxResult.resolved r, [])
      | none => (AjaxResult.rejected, [⟨"请求失败，请重试", "error"⟩])
    else (AjaxResult.rejected, [⟨"请求失败，请重试", "error"⟩])

/-- Classifier of the transport-level failures of one fetch round trip:
network error, non-ok HTTP status, or a body that is not valid JSON. -/
def isTransportFailure : FetchOutcome → Bool
  | FetchOutcome.networkError => true
  | FetchOutcome.response ok body => !ok || body.isNone

/-- The cart badge element (.cart-badge): its text content and its display
style.  An absent badge models a page without that element. -/
structure BadgeState where
  text : String
  displayStyle : String
deriving DecidableEq

/-- Rendering of a JavaScript number-or-undefined assigned to textContent:
a number renders in decimal, undefined renders as the string undefined. -/
def jsNumToString : Option Int → String
  | some n => toString n
  | none => "undefined"

/-- The JavaScript comparison (count > 0) where count may be undefined:
comparison with undefined is false. -/
def jsGtZero : Option Int → Bool
  | some n => decide (0 < n)
  | none => false

/-- Utils.updateCartBadge (utils.js lines 131-137): when the badge element
exists, set its text to the given count and show it exactly when the
count is positive; when the element is absent, do nothing. -/
def updateCartBadge (count : Option Int) : Option BadgeState → Option BadgeState
  | none => none
  | some _ =>
    some ⟨jsNumToString count, if jsGtZero count then "inline" else "none"⟩

/-- The endpoint URL of Utils.addToCart (utils.js line 141). -/
def addToCartUrl (productId : Int) : String :=
  "/products/cart/add/" ++ toString productId ++ "/"

/-- The request body of Utils.addToCart (utils.js line 146):
JSON.stringify of the object with the single property quantity. -/
def addToCartBody (quantity : Int) : String :=
  "\x7b\"quantity\":" ++ toString quantity ++ "\x7d"

/-- The options object Utils.addToCart passes to Utils.ajax (utils.js
lines 141-146): method POST, its own headers object carrying only
Content-Type, and the JSON body. -/
def addToCartOptions (quantity : Int) : RequestOptions :=
  ⟨some "POST", some [("Content-Type", "application/json")], some (addToCartBody quantity)⟩

/-- Aggregate outcome of one Utils.addToCart call: the settlement of the
returned promise, the notifications rendered in order, the final badge
state, and the arguments of the calls made to the optional callback. -/
structure CartCallResult where
  result : AjaxResult
  notifs : List Notification
  badge : Option BadgeState
  callbackCalls : List Bool
deriving DecidableEq

/-- Utils.addToCart (utils.js lines 140-161) applied to the outcome of its
fetch round trip and the current badge element.  On a resolved response
with a truthy success flag it sets the badge to the response cart_count
and renders the success notification; on a falsy success flag it renders
an error notification carrying response.error when that is truthy, else
the generic add-failure text; when Utils.ajax rejects, its own catch
handler renders a second generic error notification, calls the callback
with false, and rethrows. -/
def addToCartRun (outcome : FetchOutcome) (badge : Option BadgeState)
    (hasCallback : Bool) : CartCallResult :=
  match ajaxSettle outcome with
  | (AjaxResult.resolved r, notifs) =>
    if r.success then
      ⟨AjaxResult.resolved r,
       notifs ++ [⟨"商品已添加到购物车", "success"⟩],
       updateCartBadge r.cart_count badge,
       if hasCallback then [r.success] else []⟩
    else
      ⟨AjaxResult.resolved r,
       notifs ++ [⟨jsOrElse r.error "添加失败", "error"⟩],
       badge,
       if hasCallback then [r.success] else []⟩
  | (AjaxResult.rejected, notifs) =>
    ⟨AjaxResult.rejected,
     notifs ++ [⟨"添加失败，请重试", "error"⟩],
     badge,
     if hasCallback then [false] else []⟩

/-- The auto-close delay of Utils.showNotification in milliseconds
(utils.js line 29). -/
def inlineNotificationDelayMs : Nat := 5000

/-- The delay option passed to the toast constructor in milliseconds
(frontend.js line 209). -/
def toastDelayMs : Nat := 3000

/-- Lifecycle state of one inline notification node created by
Utils.showNotification: whether the node is still attached under
document.body, whether the setTimeout callback scheduled on creation is
still pending (neither fired nor cancelled), and how many times the node
has actually been detached. -/
structure NotifState where
  attached : Bool
  timerPending : Bool
  removeCount : Nat
deriving DecidableEq

/-- State of a freshly created inline notification (utils.js lines 12-29):
appended to document.body with its auto-close timer scheduled. -/
def notifInit : NotifState := ⟨true, true, 0⟩

/-- Events that can reach one inline notification node after creation: a
click of its close button, or the firing of its auto-close timer at the
configured delay. -/
inductive NotifEvent where
  | manualClose : NotifEvent
  | timerFire : NotifEvent
deriving DecidableEq

/-- One event applied to an inline notification.  The close button
(utils.js line 18) calls remove() on the notification node, which
detaches an attached node and is a no-op on an already detached one; it
never touches the timer.  The timer callback (utils.js lines 25-29) fires
unconditionally -- the source never calls clearTimeout -- and removes the
node only when the parentElement guard finds it still attached. -/
def notifStep (s : NotifState) : NotifEvent → NotifState
  | NotifEvent.manualClose =>
    if s.attached then ⟨false, s.timerPending, s.removeCount + 1⟩ else s
  | NotifEvent.timerFire =>
    if s.attached then ⟨false, false, s.removeCount + 1⟩
    else ⟨s.attached, false, s.removeCount⟩

/-- The inline notification state after a sequence of events from
creation. -/
def runNotif (events : List NotifEvent) : NotifState :=
  events.foldl notifStep notifInit

/-- Lifecycle state of one toast node created by showToast (frontend.js
lines 188-216): whether it is still attached, and how many times it has
been detached. -/
structure ToastState where
  attached : Bool
  removeCount : Nat
deriving DecidableEq

/-- State of a freshly created and shown toast. -/
def toastInit : ToastState := ⟨true, 0⟩

/-- Events reaching one toast node.  Modelled from the toast library
behavior the source relies on: the library hides the toast after its
configured delay, and also when its dismiss button is clicked, and in
both cases then fires the hidden event exactly once per hide. -/
inductive ToastEvent where
  | hiddenFires : ToastEvent
deriving DecidableEq

/-- One event applied to a toast: the hidden handler registered by the
source (frontend.js lines 213-215) calls remove() on the toast node,
detaching it when attached and doing nothing otherwise. -/
def toastStep (s : ToastState) : ToastEvent → ToastState
  | ToastEvent.hiddenFires =>
    if s.attached then ⟨false, s.removeCount + 1⟩ else s

/-- The toast state after a sequence of events from creation. -/
def runToast (events : List ToastEvent) : ToastState :=
  events.foldl toastStep toastInit

/-- Digits-to-number accumulator for the leading digit run of a string:
stops at the first non-digit character. -/
def digitsToNat : List Char → Nat → Nat
  | [], acc => acc
  | c :: rest, acc =>
    if c.isDigit then digitsToNat rest (acc * 10 + (c.toNat - '0'.toNat))
    else acc

/-- Model of the JavaScript parseInt on the decimal strings the cart
counter can hold: an optional leading minus sign followed by at least one
digit parses to that integer, anything else is NaN (none). -/
def jsParseInt (s : String) : Option Int :=
  match s.data with
  | [] => none
  | '-' :: c :: rest =>
    if c.isDigit then some (-(digitsToNat (c :: rest) 0 : Int)) else none
  | c :: rest =>
    if c.isDigit then some ((digitsToNat (c :: rest) 0 : Int)) else none

/-- updateCartCounter (frontend.js lines 172-185) restricted to the text
of the .cart-counter element: read the displayed integer (0 when the text
does not parse), increment it, and write it back; absent element means no
change. -/
def updateCartCounter : Option String → Option String
  | none => none
  | some t => some (toString ((jsParseInt t).getD 0 + 1))

/-- Text extraction of the platform HTML fragment parser, restricted to
tag markup as it applies to the interpolated message of the notification
templates (utils.js lines 15-20, frontend.js lines 198-206): in text
mode, a left angle bracket followed by a letter or a slash opens a tag
whose characters up to the next right angle bracket produce no text,
while every other character -- including a right angle bracket and a left
angle bracket not followed by a letter or slash -- is literal text.
Entity references are outside the modelled message alphabet. -/
def extractTextGo : Bool → List Char → List Char
  | _, [] => []
  | true, c :: rest =>
    if c = '>' then extractTextGo false rest else extractTextGo true rest
  | false, c :: rest =>
    if c = '<' then
      match rest with
      | [] => ['<']
      | d :: rest2 =>
        if d.isAlpha || d = '/' then extractTextGo true (d :: rest2)
        else '<' :: extractTextGo false (d :: rest2)
    else c :: extractTextGo false rest

/-- The text content contributed by the interpolated message once the
renderer assigns the template to innerHTML: the message parsed as an HTML
fragment, in text mode. -/
def textContentOfMessage (m : String) : String :=
  String.mk (extractTextGo false m.data)

/-- The markup Utils.showNotification assigns to innerHTML (utils.js
lines 15-20): the caller message is interpolated into the template
unescaped, verbatim between the message span tags. -/
def showNotificationHTML (message : String) : String :=
  "\n            <div class=\"notification-content\">\n                <span class=\"notification-message\">"
    ++ message
    ++ "</span>\n                <button class=\"notification-close\" onclick=\"this.parentElement.parentElement.remove()\">&times;</button>\n            </div>\n        "

/-- Presence of an HTML metacharacter in a message string. -/
def hasHtmlMetachar (s : String) : Bool :=
  s.data.any (fun c => c = '<' || c = '>' || c = '&')

/-- Exactly-once invariant of an inline notification: an attached node has
never been detached, and no node is detached more than once. -/
def NotifOk (s : NotifState) : Prop :=
  (s.attached = true → s.removeCount = 0) ∧ s.removeCount ≤ 1

theorem headersGet_set_self (hs : Headers) (k v : String) :
    headersGet (headersSet hs k v) k = some v := by
  induction hs with
  | nil => simp [headersSet, headersGet]
  | cons p rest ih =>
    obtain ⟨k0, v0⟩ := p
    by_cases h : k0 = k
    · simp [headersSet, headersGet, h]
    · simp [headersSet, headersGet, h, ih]

theorem headersGet_set_ne (hs : Headers) (k k2 v : String) (hne : k ≠ k2) :
    headersGet (headersSet hs k v) k2 = headersGet hs k2 := by
  induction hs with
  | nil => simp [headersSet, headersGet, hne]
  | cons p rest ih =>
    obtain ⟨k0, v0⟩ := p
    by_cases h : k0 = k
    · subst h
      simp [headersSet, headersGet, hne]
    · simp [headersSet, headersGet, h, ih]

theorem string_data_isEmpty_false {s : String} (h : s ≠ "") :
    s.data.isEmpty = false := by
  obtain ⟨l⟩ := s
  cases l with
  | nil => exact absurd rfl h
  | cons c rest => rfl

theorem ajaxSettle_transport (o : FetchOutcome) (h : isTransportFailure o = true) :
    ajaxSettle o = (AjaxResult.rejected, [⟨"请求失败，请重试", "error"⟩]) := by
  cases o with
  | networkError => rfl
  | response ok body =>
    cases ok with
    | false => cases body <;> rfl
    | true =>
      cases body with
      | none => rfl
      | some r => simp [isTransportFailure] at h

theorem ajaxHeaders_of_no_custom (pg : Page) (opts : RequestOptions)
    (h : opts.headers = none) :
    headersGet (ajaxHeaders pg opts) "X-Requested-With" = some "XMLHttpRequest" := by
  by_cases hm : jsToUpperCase (finalMethod opts) = "POST"
  · by_cases ht : jsTruthyStr (getCsrfToken pg) = true
    · simp only [ajaxHeaders, h, Option.getD_none, hm, if_pos, ht, if_true]
      rw [headersGet_set_ne _ _ _ _ (by decide)]
      rfl
    · simp only [ajaxHeaders, h, Option.getD_none, hm, if_pos, ht, if_false]
      rfl
  · simp only [ajaxHeaders, h, Option.getD_none, hm, if_neg, if_false]
    rfl

theorem ajaxHeaders_addToCart_no_xrw (pg : Page) (q : Int) :
    headersGet (ajaxHeaders pg (addToCartOptions q)) "X-Requested-With" = none := by
  have hmeq : jsToUpperCase (finalMethod (addToCartOptions q)) = "POST" := rfl
  have hheq : (addToCartOptions q).headers = some [("Content-Type", "application/json")] := rfl
  cases ht : jsTruthyStr (getCsrfToken pg) with
  | true =>
    simp only [ajaxHeaders, hheq, Option.getD_some, hmeq, ht, if_true, eq_self_iff_true]
    rw [headersGet_set_ne _ _ _ _ (by decide)]
    rfl
  | false =>
    simp only [ajaxHeaders, hheq, Option.getD_some, hmeq, ht, eq_self_iff_true, if_true,
      Bool.false_eq_true, if_false]
    rfl

theorem ajaxHeaders_post_attaches_token (pg : Page) (opts : RequestOptions)
    (tok : String) (hm : jsToUpperCase (finalMethod opts) = "POST")
    (hg : getCsrfToken pg = some tok) (hne : tok ≠ "") :
    headersGet (ajaxHeaders pg opts) "X-CSRFToken" = some tok := by
  have ht : jsTruthyStr (some tok) = true := by
    simp [jsTruthyStr, string_data_isEmpty_false hne]
  simp only [ajaxHeaders, hm, eq_self_iff_true, if_true, hg, ht, Option.getD_some]
  exact headersGet_set_self _ _ _

theorem ajaxHeaders_non_post_no_token (pg : Page) (opts : RequestOptions)
    (hm : ¬ jsToUpperCase (finalMethod opts) = "POST") (hh : opts.headers = none) :
    headersGet (ajaxHeaders pg opts) "X-CSRFToken" = none := by
  simp only [ajaxHeaders, hh, Option.getD_none, if_neg hm]
  rfl

theorem notifStep_ok {s : NotifState} (h : NotifOk s) (e : NotifEvent) :
    NotifOk (notifStep s e) := by
  obtain ⟨h1, h2⟩ := h
  cases e <;> cases hs : s.attached <;> simp_all [notifStep, NotifOk]

theorem foldl_notifStep_ok (l : List NotifEvent) :
    ∀ s : NotifState, NotifOk s → NotifOk (l.foldl notifStep s) := by
  induction l with
  | nil => intro s h; exact h
  | cons e rest ih => intro s h; exact ih _ (notifStep_ok h e)

theorem runNotif_ok (l : List NotifEvent) : NotifOk (runNotif l) :=
  foldl_notifStep_ok l notifInit ⟨fun _ => rfl, Nat.zero_le 1⟩

theorem notifStep_detached {s : NotifState} (h : s.attached = false)
    (e : NotifEvent) : (notifStep s e).attached = false := by
  cases e <;> simp [notifStep, h]

theorem foldl_notifStep_detached (l : List NotifEvent) :
    ∀ s : NotifState, s.attached = false → (l.foldl notifStep s).attached = false := by
  induction l with
  | nil => intro s h; exact h
  | cons e rest ih => intro s h; exact ih _ (notifStep_detached h e)

theorem notifStep_timerFire_detaches (s : NotifState) :
    (notifStep s NotifEvent.timerFire).attached = false := by
  cases hs : s.attached <;> simp [notifStep, hs]

theorem notifStep_manualClose_detaches (s : NotifState) :
    (notifStep s NotifEvent.manualClose).attached = false := by
  cases hs : s.attached <;> simp [notifStep, hs]

theorem notifStep_manualClose_timer (s : NotifState) :
    (notifStep s NotifEvent.manualClose).timerPending = s.timerPending := by
  cases hs : s.attached <;> simp [notifStep, hs]

theorem notifStep_timerFire_detached_count {s : NotifState}
    (h : s.attached = false) :
    (notifStep s NotifEvent.timerFire).removeCount = s.removeCount := by
  simp [notifStep, h]

theorem runNotif_timerFire_mem (l : List NotifEvent)
    (h : NotifEvent.timerFire ∈ l) : (runNotif l).attached = false := by
  obtain ⟨l1, l2, rfl⟩ := List.append_of_mem h
  unfold runNotif
  rw [List.foldl_append, List.foldl_cons]
  exact foldl_notifStep_detached l2 _ (notifStep_timerFire_detaches _)

theorem toastStep_detaches (s : ToastState) :
    (toastStep s ToastEvent.hiddenFires).attached = false := by
  cases hs : s.attached <;> simp [toastStep, hs]

theorem foldl_toastStep_detached (l : List ToastEvent) :
    ∀ s : ToastState, s.attached = false → (l.foldl toastStep s).attached = false := by
  induction l with
  | nil => intro s h; exact h
  | cons e rest ih =>
    intro s h
    cases e
    exact ih _ (by simp [toastStep, h])

theorem runToast_hidden_mem (l : List ToastEvent)
    (h : ToastEvent.hiddenFires ∈ l) : (runToast l).attached = false := by
  obtain ⟨l1, l2, rfl⟩ := List.append_of_mem h
  unfold runToast
  rw [List.foldl_append, List.foldl_cons]
  exact foldl_toastStep_detached l2 _ (toastStep_detaches _)

theorem extractTextGo_no_lt : ∀ l : List Char, '<' ∉ l → extractTextGo false l = l := by
  intro l
  induction l with
  | nil => intro _; rfl
  | cons c rest ih =>
    intro h
    rw [List.mem_cons, not_or] at h
    obtain ⟨hc, hr⟩ := h
    have hc2 : ¬ c = '<' := fun hh => hc hh.symm
    rw [extractTextGo.eq_def]
    simp only [if_neg hc2]
    exact congrArg (List.cons c) (ih hr)

theorem no_metachar_no_lt {m : String} (h : hasHtmlMetachar m = false) :
    '<' ∉ m.data := by
  intro hm
  have h2 : hasHtmlMetachar m = true := by
    simp only [hasHtmlMetachar, List.any_eq_true]
    exact ⟨'<', hm, by decide⟩
  rw [h] at h2
  exact Bool.false_ne_true h2

theorem textContent_of_no_metachar (m : String) (h : hasHtmlMetachar m = false) :
    textContentOfMessage m = m := by
  unfold textContentOfMessage
  rw [extractTextGo_no_lt m.data (no_metachar_no_lt h)]

/-- C1: Counterexample to the claim as stated.  With a CSRF token
discoverable from the csrftoken cookie and the mutating method PUT, the
request dispatched by Utils.ajax carries no X-CSRFToken header: the source
checks only for POST (utils.js line 63). -/
theorem c1_put_token_not_attached :
    getCsrfToken ⟨"csrftoken=tok123", none⟩ = some "tok123" ∧
    headersGet (ajaxHeaders ⟨"csrftoken=tok123", none⟩ ⟨some "PUT", none, none⟩)
      "X-CSRFToken" = none := by
  decide

/-- C1: Amended claim.  Utils.ajax attaches a discoverable, non-empty CSRF
token as the X-CSRFToken header exactly when the request method uppercases
to POST; for every other method, including the mutating verbs PUT, PATCH
and DELETE, no X-CSRFToken header is attached (the negative half is stated
for calls that supply no headers object of their own, since a caller could
place arbitrary keys in a custom headers object). -/
theorem c1_csrf_token_attached_exactly_for_post :
    (∀ (pg : Page) (opts : RequestOptions) (tok : String),
      jsToUpperCase (finalMethod opts) = "POST" →
      getCsrfToken pg = some tok → tok ≠ "" →
      headersGet (ajaxHeaders pg opts) "X-CSRFToken" = some tok) ∧
    (∀ (pg : Page) (opts : RequestOptions),
      ¬ jsToUpperCase (finalMethod opts) = "POST" → opts.headers = none →
      headersGet (ajaxHeaders pg opts) "X-CSRFToken" = none) :=
  ⟨ajaxHeaders_post_attaches_token, ajaxHeaders_non_post_no_token⟩

/-- C1: Witness instantiating both halves of the amended claim at
concrete inputs. -/
theorem c1_csrf_token_attached_exactly_for_post_witness :
    headersGet (ajaxHeaders ⟨"csrftoken=tok123", none⟩ ⟨some "post", none, none⟩)
      "X-CSRFToken" = some "tok123" ∧
    headersGet (ajaxHeaders ⟨"csrftoken=tok123", none⟩ ⟨some "DELETE", none, none⟩)
      "X-CSRFToken" = none :=
  ⟨c1_csrf_token_attached_exactly_for_post.1 ⟨"csrftoken=tok123", none⟩
      ⟨some "post", none, none⟩ "tok123" (by decide) (by decide) (by decide),
   c1_csrf_token_attached_exactly_for_post.2 ⟨"csrftoken=tok123", none⟩
      ⟨some "DELETE", none, none⟩ (by decide) rfl⟩

/-- C2: Counterexample to the claim as stated.  The spread of options over
the defaults (utils.js line 60) is shallow, so the headers object supplied
by Utils.addToCart replaces the default headers wholesale, and the
dispatched request does not carry X-Requested-With. -/
theorem c2_addToCart_request_lacks_requested_with :
    headersGet (ajaxHeaders ⟨"csrftoken=tok123", none⟩ (addToCartOptions 1))
      "X-Requested-With" = none := by
  decide

/-- C2: Amended claim.  Caller options replace the defaults key by key, so
a request carries the default header X-Requested-With: XMLHttpRequest
exactly when the caller supplies no headers object of its own; in
particular Utils.addToCart supplies its own headers object and its
requests carry no X-Requested-With header. -/
theorem c2_requested_with_header_iff_no_caller_headers :
    (∀ (pg : Page) (opts : RequestOptions), opts.headers = none →
      headersGet (ajaxHeaders pg opts) "X-Requested-With" = some "XMLHttpRequest") ∧
    (∀ (pg : Page) (q : Int),
      headersGet (ajaxHeaders pg (addToCartOptions q)) "X-Requested-With" = none) :=
  ⟨ajaxHeaders_of_no_custom, ajaxHeaders_addToCart_no_xrw⟩

/-- C2: Witness instantiating both halves of the amended claim at
concrete inputs. -/
theorem c2_requested_with_header_iff_no_caller_headers_witness :
    headersGet (ajaxHeaders ⟨"", none⟩ ⟨none, none, none⟩) "X-Requested-With"
      = some "XMLHttpRequest" ∧
    headersGet (ajaxHeaders ⟨"", none⟩ (addToCartOptions 1)) "X-Requested-With"
      = none :=
  ⟨c2_requested_with_header_iff_no_caller_headers.1 ⟨"", none⟩ ⟨none, none, none⟩ rfl,
   c2_requested_with_header_iff_no_caller_headers.2 ⟨"", none⟩ 1⟩

/-- C3: For every Utils.ajax call whose round trip is a transport failure
(non-ok HTTP status, a body that is not valid JSON, or a network error),
exactly one error notification is rendered -- the generic failure message
-- and the returned promise rejects; the notification is a side effect of
the catch handler performed before the rethrow, so the rejection reaches
the caller after it. -/
theorem c3_ajax_failure_single_notification_and_rejected :
    ∀ o : FetchOutcome, isTransportFailure o = true →
      ajaxSettle o = (AjaxResult.rejected, [⟨"请求失败，请重试", "error"⟩]) :=
  ajaxSettle_transport

/-- C3: Witness at a concrete non-ok HTTP response. -/
theorem c3_ajax_failure_single_notification_and_rejected_witness :
    ajaxSettle (FetchOutcome.response false (some ⟨true, none, none⟩)) =
      (AjaxResult.rejected, [⟨"请求失败，请重试", "error"⟩]) :=
  c3_ajax_failure_single_notification_and_rejected
    (FetchOutcome.response false (some ⟨true, none, none⟩)) (by decide)

/-- C4: Counterexample to the claim as stated.  After a manual dismissal
of a freshly created inline notification, the node is detached but the
auto-dismissal timer is still pending: the source never calls
clearTimeout, so the scheduled callback is not cancelled. -/
theorem c4_manual_close_timer_still_pending :
    (notifStep notifInit NotifEvent.manualClose).attached = false ∧
    (notifStep notifInit NotifEvent.manualClose).timerPending = true := by
  decide

/-- C4: Amended claim.  Every notification is removed at most once along
any sequence of close clicks and timer firings; manual dismissal does not
cancel the pending auto-dismissal timer -- instead the scheduled callback
guards on the node still being attached (utils.js line 26) and detaches
nothing when the node was already removed. -/
theorem c4_notification_removed_at_most_once_via_guard :
    (∀ l : List NotifEvent, (runNotif l).removeCount ≤ 1) ∧
    (∀ s : NotifState,
      (notifStep s NotifEvent.manualClose).timerPending = s.timerPending) ∧
    (∀ s : NotifState, s.attached = false →
      (notifStep s NotifEvent.timerFire).removeCount = s.removeCount) :=
  ⟨fun l => (runNotif_ok l).2, notifStep_manualClose_timer,
   fun _ h => notifStep_timerFire_detached_count h⟩

/-- C4: Witness instantiating the amended claim on the manual-close-then-
timer trace and on a detached state. -/
theorem c4_notification_removed_at_most_once_via_guard_witness :
    (runNotif [NotifEvent.manualClose, NotifEvent.timerFire]).removeCount ≤ 1 ∧
    (notifStep notifInit NotifEvent.manualClose).timerPending = notifInit.timerPending ∧
    (notifStep ⟨false, true, 1⟩ NotifEvent.timerFire).removeCount
      = (⟨false, true, 1⟩ : NotifState).removeCount :=
  ⟨c4_notification_removed_at_most_once_via_guard.1
      [NotifEvent.manualClose, NotifEvent.timerFire],
   c4_notification_removed_at_most_once_via_guard.2.1 notifInit,
   c4_notification_removed_at_most_once_via_guard.2.2 ⟨false, true, 1⟩ rfl⟩

/-- C5: Counterexample to the claim as stated.  With the badge displaying
10 and a success response reporting cart_count 5, Utils.addToCart sets the
badge text to 5: the indicator is overwritten with the server-reported
count, not read and incremented -- the read-and-increment behavior lives
only in updateCartCounter of frontend.js, which would display 11 here. -/
theorem c5_badge_set_not_incremented :
    (addToCartRun (FetchOutcome.response true (some ⟨true, none, some 5⟩))
        (some ⟨"10", "inline"⟩) false).badge = some ⟨"5", "inline"⟩ ∧
    updateCartCounter (some "10") = some "11" ∧
    (⟨"5", "inline"⟩ : BadgeState) ≠ ⟨"11", "inline"⟩ := by
  decide

/-- C5: Amended claim.  For every Utils.addToCart call whose response
indicates success, the visible cart badge is set to the server-reported
cart_count (shown when positive, hidden otherwise) and exactly one success
notification is emitted; the displayed integer is not read or
incremented. -/
theorem c5_success_sets_badge_to_server_count :
    ∀ (r : ApiResponse) (n : Int) (b : BadgeState),
      r.success = true → r.cart_count = some n →
      (addToCartRun (FetchOutcome.response true (some r)) (some b) false).notifs
          = [⟨"商品已添加到购物车", "success"⟩] ∧
      (addToCartRun (FetchOutcome.response true (some r)) (some b) false).badge
          = some ⟨toString n, if 0 < n then "inline" else "none"⟩ := by
  intro r n b hs hc
  obtain ⟨succ, err, cc⟩ := r
  dsimp only at hs hc
  subst hs
  subst hc
  refine ⟨rfl, ?_⟩
  simp [addToCartRun, ajaxSettle, updateCartBadge, jsNumToString, jsGtZero]

/-- C5: Witness at a concrete success response with cart_count 5 and a
concrete badge. -/
theorem c5_success_sets_badge_to_server_count_witness :
    (addToCartRun (FetchOutcome.response true (some ⟨true, none, some 5⟩))
        (some ⟨"0", "none"⟩) false).notifs = [⟨"商品已添加到购物车", "success"⟩] ∧
    (addToCartRun (FetchOutcome.response true (some ⟨true, none, some 5⟩))
        (some ⟨"0", "none"⟩) false).badge
      = some ⟨toString (5 : Int), if (0 : Int) < 5 then "inline" else "none"⟩ :=
  c5_success_sets_badge_to_server_count ⟨true, none, some 5⟩ 5 ⟨"0", "none"⟩ rfl rfl

/-- C6: Utils.addToCart with productId 42 and quantity 1 posts to the
per-product endpoint with the JSON quantity body, and on the response with
success true and cart_count 5 it sets the visible badge to display 5
(shown), emits exactly one success notification, and resolves with the
response. -/
theorem c6_addToCart_42_success_displays_five :
    ∀ b : BadgeState,
      addToCartUrl 42 = "/products/cart/add/42/" ∧
      addToCartBody 1 = "\x7b\"quantity\":1\x7d" ∧
      addToCartRun (FetchOutcome.response true (some ⟨true, none, some 5⟩))
          (some b) false =
        ⟨AjaxResult.resolved ⟨true, none, some 5⟩,
         [⟨"商品已添加到购物车", "success"⟩],
         some ⟨"5", "inline"⟩, []⟩ :=
  fun _ => ⟨rfl, rfl, rfl⟩

/-- C6: Witness at a concrete prior badge state. -/
theorem c6_addToCart_42_success_displays_five_witness :
    addToCartUrl 42 = "/products/cart/add/42/" ∧
    addToCartBody 1 = "\x7b\"quantity\":1\x7d" ∧
    addToCartRun (FetchOutcome.response true (some ⟨true, none, some 5⟩))
        (some ⟨"3", "inline"⟩) false =
      ⟨AjaxResult.resolved ⟨true, none, some 5⟩,
       [⟨"商品已添加到购物车", "success"⟩],
       some ⟨"5", "inline"⟩, []⟩ :=
  c6_addToCart_42_success_displays_five ⟨"3", "inline"⟩

/-- C7: Utils.addToCart against a response with success false and error
text out of stock renders exactly one notification, of error severity,
whose message is exactly the server-supplied text (hence contains it), and
the cart badge is returned unchanged for every prior badge state. -/
theorem c7_out_of_stock_single_error_badge_unchanged :
    ∀ badge : Option BadgeState,
      addToCartRun
          (FetchOutcome.response true (some ⟨false, some "out of stock", none⟩))
          badge false =
        ⟨AjaxResult.resolved ⟨false, some "out of stock", none⟩,
         [⟨"out of stock", "error"⟩], badge, []⟩ :=
  fun _ => rfl

/-- C7: Witness at a concrete badge state. -/
theorem c7_out_of_stock_single_error_badge_unchanged_witness :
    addToCartRun
        (FetchOutcome.response true (some ⟨false, some "out of stock", none⟩))
        (some ⟨"2", "inline"⟩) false =
      ⟨AjaxResult.resolved ⟨false, some "out of stock", none⟩,
       [⟨"out of stock", "error"⟩], some ⟨"2", "inline"⟩, []⟩ :=
  c7_out_of_stock_single_error_badge_unchanged (some ⟨"2", "inline"⟩)

/-- C8: The inline notification auto-close delay is 5000 ms and the toast
delay is 3000 ms; along every event sequence containing the timer firing
the inline node ends detached, whatever other events surround it; a manual
close click detaches the inline node immediately from any state; and along
every toast event sequence containing the hidden event the toast node ends
detached. -/
theorem c8_auto_removal_after_fixed_delay_and_manual_close :
    inlineNotificationDelayMs = 5000 ∧ toastDelayMs = 3000 ∧
    (∀ l : List NotifEvent, NotifEvent.timerFire ∈ l → (runNotif l).attached = false) ∧
    (∀ s : NotifState, (notifStep s NotifEvent.manualClose).attached = false) ∧
    (∀ l : List ToastEvent, ToastEvent.hiddenFires ∈ l → (runToast l).attached = false) :=
  ⟨rfl, rfl, runNotif_timerFire_mem, notifStep_manualClose_detaches, runToast_hidden_mem⟩

/-- C8: Witness on concrete singleton traces and the initial state. -/
theorem c8_auto_removal_after_fixed_delay_and_manual_close_witness :
    (runNotif [NotifEvent.timerFire]).attached = false ∧
    (notifStep notifInit NotifEvent.manualClose).attached = false ∧
    (runToast [ToastEvent.hiddenFires]).attached = false :=
  ⟨c8_auto_removal_after_fixed_delay_and_manual_close.2.2.1
      [NotifEvent.timerFire] (by decide),
   c8_auto_removal_after_fixed_delay_and_manual_close.2.2.2.1 notifInit,
   c8_auto_removal_after_fixed_delay_and_manual_close.2.2.2.2
      [ToastEvent.hiddenFires] (by decide)⟩

/-- C9: For every transport-level failure of the round trip underlying
Utils.addToCart, exactly two error notifications are rendered in order --
the generic retry message from the Utils.ajax catch handler, then the
generic add-failure message from the addToCart catch handler -- the
callback, when supplied, is called with false, and the rejection then
propagates to the caller. -/
theorem c9_transport_failure_two_error_notifications :
    ∀ (o : FetchOutcome) (badge : Option BadgeState) (cb : Bool),
      isTransportFailure o = true →
      addToCartRun o badge cb =
        ⟨AjaxResult.rejected,
         [⟨"请求失败，请重试", "error"⟩, ⟨"添加失败，请重试", "error"⟩],
         badge, if cb then [false] else []⟩ := by
  intro o badge cb h
  unfold addToCartRun
  rw [ajaxSettle_transport o h]
  rfl

/-- C9: Witness at a concrete network error with no callback. -/
theorem c9_transport_failure_two_error_notifications_witness :
    addToCartRun FetchOutcome.networkError none false =
      ⟨AjaxResult.rejected,
       [⟨"请求失败，请重试", "error"⟩, ⟨"添加失败，请重试", "error"⟩],
       none, if false then [false] else []⟩ :=
  c9_transport_failure_two_error_notifications FetchOutcome.networkError none false rfl

/-- C10: Counterexample to the claim as stated.  The message 1>0 contains
the HTML metacharacter greater-than yet is displayed verbatim: a
greater-than sign that is not part of a tag is literal text, so equality
of displayed text and message does not imply the message is free of HTML
metacharacters. -/
theorem c10_gt_message_survives_verbatim :
    hasHtmlMetachar "1>0" = true ∧ textContentOfMessage "1>0" = "1>0" := by
  decide

/-- C10: Amended claim.  The renderers interpolate the caller message
unescaped into innerHTML, so markup in the message is parsed as structure:
there is a message containing HTML markup whose displayed text differs
from the message, and every message free of the HTML metacharacters is
displayed verbatim -- but the converse fails, as some messages containing
a metacharacter are also displayed verbatim. -/
theorem c10_unescaped_interpolation_display :
    (textContentOfMessage "<b>hi</b>" = "hi" ∧ ("<b>hi</b>" : String) ≠ "hi") ∧
    (∀ m : String, hasHtmlMetachar m = false → textContentOfMessage m = m) :=
  ⟨by decide, textContent_of_no_metachar⟩

/-- C10: Witness applying the verbatim half at a metacharacter-free
message. -/
theorem c10_unescaped_interpolation_display_witness :
    textContentOfMessage "hello" = "hello" :=
  c10_unescaped_interpolation_display.2 "hello" (by decide)

end Web
